import Mathlib

/-!
Verification of the conversation/state-machine core of the PDF-splitter bot
implemented in `app.py`.

The Python code is shallowly embedded: Python strings become `List Char`,
`time.time()` values become rationals, the on-disk file system and the token
registry become association lists, and each handler's effect on
`context.user_data` becomes an explicit state-passing function.  Each
definition carries a comment pointing at the lines of `app.py` it embeds.
-/

/-! ## Python string primitives used by `app.py`

All strings handled by the bot (page-range inputs, filenames, URLs) are
treated as character lists.  The helpers below model the exact Python
string operations the source uses: `str.lower`, `str.split('-')`,
`int(...)` on a decimal literal, `os.path.basename`, substring tests
(`x in s`), and `str.endswith`.
-/

/-- Embeds `str.lower` as used on the ASCII inputs of this code base
(`Char.toLower` lowers exactly the basic latin letters, as Python does
on ASCII input). -/
def pyLower (cs : List Char) : List Char := cs.map Char.toLower

/-- ASCII whitespace stripped by Python's `int(...)` conversion. -/
def pyIsSpace (c : Char) : Bool :=
  c == ' ' || c == '\t' || c == '\n' || c == '\x0d'

/-- ASCII decimal digit test (`48 ≤ code ≤ 57`), the digits accepted by
`int(...)` for the inputs this bot sees. -/
def pyIsDigit (c : Char) : Bool :=
  decide (48 ≤ c.toNat) && decide (c.toNat ≤ 57)

/-- Does `pat` occur at the very front of `cs`? -/
def leadsWith : List Char → List Char → Bool
  | [], _ => true
  | _ :: _, [] => false
  | a :: as, b :: bs => a == b && leadsWith as bs

/-- Python's substring test `pat in cs`. -/
def containsSub (pat : List Char) : List Char → Bool
  | [] => leadsWith pat []
  | c :: t => leadsWith pat (c :: t) || containsSub pat t

/-- Python's `cs.endswith(pat)`. -/
def endsIn (pat cs : List Char) : Bool :=
  leadsWith pat.reverse cs.reverse

/-- Embeds `os.path.basename` on a POSIX path: everything after the last `/`. -/
def pyBasename (cs : List Char) : List Char :=
  (cs.reverse.takeWhile (fun c => c != '/')).reverse

/-- Python's `str.split('-')`: split on every hyphen, keeping empty parts. -/
def pySplitHyphen : List Char → List (List Char)
  | [] => [[]]
  | c :: rest =>
    let r := pySplitHyphen rest
    if c = '-' then [] :: r
    else
      match r with
      | h :: t => (c :: h) :: t
      | [] => [[c]]

/-- The numeric value of a run of decimal digits; `none` if the run is empty
or contains a non-digit. -/
def decDigitsVal (ds : List Char) : Option Nat :=
  if ds = [] then none
  else if ds.all pyIsDigit then
    some (ds.foldl (fun a c => a * 10 + (c.toNat - 48)) 0)
  else none

/-- Sign handling of Python's `int(s)`: an optional leading `-` or `+`
followed by decimal digits. -/
def pyIntCore : List Char → Option Int
  | [] => none
  | c :: ds =>
    if c = '-' then (decDigitsVal ds).map (fun n => -(n : Int))
    else if c = '+' then (decDigitsVal ds).map (fun n => (n : Int))
    else (decDigitsVal (c :: ds)).map (fun n => (n : Int))

/-- Python's `int(s)` on the strings this bot can receive: optional ASCII
whitespace around an optional sign followed by decimal digits; anything
else raises `ValueError`, modelled as `none`. -/
def pyInt (cs : List Char) : Option Int :=
  pyIntCore (((cs.dropWhile pyIsSpace).reverse.dropWhile pyIsSpace).reverse)

/-- The page-range parse step of `process_page_range` (`app.py` 544-556):
if the text contains a hyphen, `start, end = map(int, text.split('-'))`
(exactly two parts required, else `ValueError`); otherwise
`start = end = int(text)`.  `none` is the caught `ValueError`. -/
def parseRange (cs : List Char) : Option (Int × Int) :=
  if cs.contains '-' then
    match pySplitHyphen cs with
    | [a, b] =>
      match pyInt a, pyInt b with
      | some x, some y => some (x, y)
      | _, _ => none
    | _ => none
  else (pyInt cs).map (fun x => (x, x))

/-- The literal `'yes'` that the pending-range branch of
`process_page_range` compares against (`app.py` 539). -/
def yesChars : List Char := ['y', 'e', 's']

/-! ### Character facts

`process_page_range` first checks `text.lower() == 'yes'` and only then
falls back to numeric parsing; the lemmas below show the two branches are
mutually exclusive: a string whose lowercase form is `yes` never parses as
a numeric range. -/

theorem toLower_eq_self_of_pyIsDigit (c : Char) (h : pyIsDigit c = true) :
    c.toLower = c := by
  simp only [pyIsDigit, Bool.and_eq_true, decide_eq_true_eq] at h
  unfold Char.toLower
  rw [if_neg]
  omega

theorem not_pyIsDigit_of_toLower_yes (c : Char)
    (h : c.toLower = 'y' ∨ c.toLower = 'e' ∨ c.toLower = 's') :
    pyIsDigit c = false := by
  by_contra hd
  rw [Bool.not_eq_false] at hd
  have hself := toLower_eq_self_of_pyIsDigit c hd
  rw [hself] at h
  rcases h with h | h | h <;> subst h <;> simp [pyIsDigit] at hd

theorem ne_hyphen_of_toLower_yes (c : Char)
    (h : c.toLower = 'y' ∨ c.toLower = 'e' ∨ c.toLower = 's') :
    c ≠ '-' := by
  intro he
  subst he
  rcases h with h | h | h <;> simp [Char.toLower] at h

theorem ne_plus_of_toLower_yes (c : Char)
    (h : c.toLower = 'y' ∨ c.toLower = 'e' ∨ c.toLower = 's') :
    c ≠ '+' := by
  intro he
  subst he
  rcases h with h | h | h <;> simp [Char.toLower] at h

theorem not_pyIsSpace_of_toLower_yes (c : Char)
    (h : c.toLower = 'y' ∨ c.toLower = 'e' ∨ c.toLower = 's') :
    pyIsSpace c = false := by
  by_contra hs
  rw [Bool.not_eq_false] at hs
  simp only [pyIsSpace, Bool.or_eq_true, beq_iff_eq] at hs
  rcases hs with ((hs | hs) | hs) | hs <;> subst hs <;> revert h <;> decide

/-- A string whose Python-lowercase form is `"yes"` raises `ValueError`
in the numeric parse of `process_page_range`. -/
theorem parseRange_eq_none_of_lower_yes (cs : List Char)
    (h : pyLower cs = yesChars) : parseRange cs = none := by
  unfold pyLower yesChars at h
  cases cs with
  | nil => simp at h
  | cons a t =>
    cases t with
    | nil => simp at h
    | cons b t2 =>
      cases t2 with
      | nil => simp at h
      | cons c t3 =>
        cases t3 with
        | cons d t4 => simp at h
        | nil =>
          simp only [List.map_cons, List.map_nil, List.cons.injEq, and_true] at h
          obtain ⟨ha, hb, hc⟩ := h
          have ha3 : a.toLower = 'y' ∨ a.toLower = 'e' ∨ a.toLower = 's' := Or.inl ha
          have hb3 : b.toLower = 'y' ∨ b.toLower = 'e' ∨ b.toLower = 's' := Or.inr (Or.inl hb)
          have hc3 : c.toLower = 'y' ∨ c.toLower = 'e' ∨ c.toLower = 's' := Or.inr (Or.inr hc)
          have hna : a ≠ '-' := ne_hyphen_of_toLower_yes a ha3
          have hnb : b ≠ '-' := ne_hyphen_of_toLower_yes b hb3
          have hnc : c ≠ '-' := ne_hyphen_of_toLower_yes c hc3
          have hpa : a ≠ '+' := ne_plus_of_toLower_yes a ha3
          have hsa : pyIsSpace a = false := not_pyIsSpace_of_toLower_yes a ha3
          have hsc : pyIsSpace c = false := not_pyIsSpace_of_toLower_yes c hc3
          have hda : pyIsDigit a = false := not_pyIsDigit_of_toLower_yes a ha3
          have hcontains : (([a, b, c] : List Char).contains '-') = false := by
            simp only [List.contains, List.elem_cons, List.elem_nil]
            have e1 : ('-' == a) = false := by
              simp only [beq_eq_false_iff_ne, ne_eq]
              exact fun he => hna he.symm
            have e2 : ('-' == b) = false := by
              simp only [beq_eq_false_iff_ne, ne_eq]
              exact fun he => hnb he.symm
            have e3 : ('-' == c) = false := by
              simp only [beq_eq_false_iff_ne, ne_eq]
              exact fun he => hnc he.symm
            simp [e1, e2, e3]
          have hstrip :
              ((([a, b, c] : List Char).dropWhile pyIsSpace).reverse.dropWhile
                pyIsSpace).reverse = [a, b, c] := by
            simp [List.dropWhile_cons, hsa, hsc]
          have hdv : decDigitsVal [a, b, c] = none := by
            unfold decDigitsVal
            rw [if_neg (by simp), if_neg]
            simp [hda]
          have hint : pyInt [a, b, c] = none := by
            unfold pyInt
            rw [hstrip]
            simp only [pyIntCore]
            rw [if_neg hna, if_neg hpa, hdv]
            rfl
          unfold parseRange
          rw [hcontains]
          simp only [Bool.false_eq_true, if_false, hint]
          rfl

/-! ## Conversation states and size limits

`app.py` 24-29: the conversation states are `range(5)` and the two size
ceilings are fixed constants. -/

def UPLOAD_PDF : Nat := 0

def GET_URL : Nat := 1

def CONFIRM_DOWNLOAD : Nat := 2

def GET_PAGE_RANGE : Nat := 3

def SELECT_LOCAL_PDF : Nat := 4

/-- Embeds `app.py` 27: 50 MB Telegram bot limit, in bytes. -/
def MAX_FILE_SIZE : Nat := 50 * 1024 * 1024

/-- Embeds `app.py` 29: 2 GB ceiling for URL downloads, in bytes. -/
def MAX_DOWNLOAD_SIZE : Nat := 2 * 1024 * 1024 * 1024

/-! ## Page extractor (`process_page_range`, `app.py` 578-610)

A source PDF is modelled as the list of its pages (the page type is
abstract).  `PdfReader.pages[i]` supports Python-style negative indexing;
out-of-range access raises, modelled as `none`. -/

/-- Python sequence indexing `pages[i]`, including negative indices. -/
def pyIndex {α : Type} (xs : List α) (i : Int) : Option α :=
  if 0 ≤ i then xs.get? i.toNat
  else if (-i).toNat ≤ xs.length then xs.get? (xs.length - (-i).toNat)
  else none

/-- Python's `range(a, b)` over integers. -/
def pyRange (a b : Int) : List Int :=
  (List.range (b - a).toNat).map (fun k : Nat => a + (k : Int))

/-- The page-copy loop of `process_page_range` (`app.py` 588-605): append
`pdf_reader.pages[page_num]` to the writer for each index in turn; a
failing page access aborts the whole extraction (the caller returns
`GET_PAGE_RANGE` and discards the partial output). -/
def copyPages {α : Type} (pages : List α) : List Int → Option (List α)
  | [] => some []
  | i :: rest =>
    match pyIndex pages i with
    | none => none
    | some p =>
      match copyPages pages rest with
      | none => none
      | some ps => some (p :: ps)

/-- The extractor of `process_page_range`: copy pages
`range(start_page - 1, end_page)` of the source, in order
(`app.py` 588-610). -/
def extractRange {α : Type} (pages : List α) (start_page end_page : Int) :
    Option (List α) :=
  copyPages pages (pyRange (start_page - 1) end_page)

/-- Embeds `app.py` 582: `progress_interval = max(1, total_pages // 10)`. -/
def progress_interval (total_pages : Nat) : Nat :=
  max 1 (total_pages / 10)

/-- Number of progress reports the extraction loop attempts
(`app.py` 588-600): one for each loop counter `i` with
`i % progress_interval == 0 and i > 0`. -/
def progressReportCount (total_pages : Nat) : Nat :=
  ((List.range total_pages).filter
    (fun i => i % progress_interval total_pages == 0 && decide (0 < i))).length

/-- The download progress condition of `button_handler` (`app.py` 310-313):
an update is attempted after a chunk iff
`total_size > 0 and ((downloaded / total_size) - (last_update_time / total_size) > 0.05
or current_time - start_time - last_update_time > 10)`,
where `last_update_time` holds the *byte count* at the previous update.
Float arithmetic is modelled over `ℚ`. -/
def shouldReportDownloadProgress
    (total_size downloaded last_update_time start_time current_time : ℚ) : Bool :=
  decide (0 < total_size) &&
    (decide (downloaded / total_size - last_update_time / total_size > 5 / 100) ||
      decide (current_time - start_time - last_update_time > 10))

/-! ### Correctness of the extractor loop -/

theorem copyPages_spec {α : Type} (pages : List α) :
    ∀ idxs : List Int,
      (∀ i ∈ idxs, (pyIndex pages i).isSome) →
      ∃ out, copyPages pages idxs = some out ∧
        out.length = idxs.length ∧
        ∀ k : Nat, k < idxs.length →
          out.get? k = (idxs.get? k).bind (pyIndex pages) := by
  intro idxs
  induction idxs with
  | nil =>
    intro _
    exact ⟨[], rfl, rfl, fun k hk => absurd hk (by simp)⟩
  | cons i rest ih =>
    intro hall
    have hi : (pyIndex pages i).isSome := hall i (List.mem_cons_self i rest)
    obtain ⟨p, hp⟩ := Option.isSome_iff_exists.mp hi
    obtain ⟨out, hout, hlen, hget⟩ :=
      ih (fun j hj => hall j (List.mem_cons_of_mem i hj))
    refine ⟨p :: out, ?_, by simp [hlen], ?_⟩
    · unfold copyPages
      rw [hp, hout]
    · intro k hk
      cases k with
      | zero => simp [hp]
      | succ k' =>
        simp only [List.get?_cons_succ]
        exact hget k' (by simpa using hk)

theorem pyRange_length (a b : Int) : (pyRange a b).length = (b - a).toNat := by
  simp [pyRange]

theorem pyRange_get (a b : Int) (k : Nat) (hk : k < (b - a).toNat) :
    (pyRange a b).get? k = some (a + k) := by
  unfold pyRange
  rw [List.get?_map, List.get?_range hk]
  rfl

theorem pyRange_mem (a b : Int) (i : Int) (hi : i ∈ pyRange a b) :
    ∃ k : Nat, k < (b - a).toNat ∧ i = a + k := by
  simp only [pyRange, List.mem_map, List.mem_range] at hi
  obtain ⟨k, hk, hik⟩ := hi
  exact ⟨k, hk, hik.symm⟩

/-- C1: for every source PDF and every valid range `(start, end)` with
`1 ≤ start ≤ end ≤ page_count`, the extractor of `process_page_range`
succeeds and produces an output whose page count is `end - start + 1` and
whose page `i` (0-based) is page `start - 1 + i` (0-based) of the source,
appended in order. -/
theorem extractRange_valid_range_spec {α : Type} (pages : List α) (s e : Int)
    (h1 : 1 ≤ s) (h2 : s ≤ e) (h3 : e ≤ (pages.length : Int)) :
    ∃ out, extractRange pages s e = some out ∧
      (out.length : Int) = e - s + 1 ∧
      ∀ i : Nat, i < out.length →
        out.get? i = pages.get? ((s - 1).toNat + i) := by
  have hall : ∀ i ∈ pyRange (s - 1) e, (pyIndex pages i).isSome := by
    intro i hi
    obtain ⟨k, hk, hik⟩ := pyRange_mem (s - 1) e i hi
    have h0 : 0 ≤ i := by omega
    have hlt : i.toNat < pages.length := by omega
    unfold pyIndex
    rw [if_pos h0, List.get?_eq_get hlt]
    rfl
  obtain ⟨out, hout, hlen, hget⟩ := copyPages_spec pages (pyRange (s - 1) e) hall
  rw [pyRange_length] at hlen
  refine ⟨out, hout, by omega, ?_⟩
  intro i hi
  have hi' : i < (e - (s - 1)).toNat := by omega
  rw [hget i (by rw [pyRange_length]; omega), pyRange_get (s - 1) e i hi']
  have h0 : (0 : Int) ≤ s - 1 + i := by omega
  have htn : (s - 1 + (i : Int)).toNat = (s - 1).toNat + i := by omega
  simp only [Option.some_bind, pyIndex, if_pos h0, htn]

/-- Witness for C1 on a concrete 5-page document and the range `(2, 4)`. -/
theorem extractRange_valid_range_spec_witness :
    ((1 : Int) ≤ 2 ∧ (2 : Int) ≤ 4 ∧ (4 : Int) ≤ (([10, 20, 30, 40, 50] : List Nat).length : Int)) ∧
    (∃ out, extractRange ([10, 20, 30, 40, 50] : List Nat) 2 4 = some out ∧
      (out.length : Int) = 4 - 2 + 1 ∧
      ∀ i : Nat, i < out.length →
        out.get? i = ([10, 20, 30, 40, 50] : List Nat).get? (((2 : Int) - 1).toNat + i)) :=
  ⟨⟨by norm_num, by norm_num, by norm_num⟩,
    extractRange_valid_range_spec ([10, 20, 30, 40, 50] : List Nat) 2 4
      (by norm_num) (by norm_num) (by norm_num)⟩

/-! ## Token registry and file host (`app.py` 76-122)

`file_tokens` is a dict from token strings to entries; it is modelled as an
association list where insertion conses (the most recent binding wins on
lookup, like a dict overwrite).  `time.time()` values are rationals.  The
`threading.Timer` that pops an entry `FILE_EXPIRATION_TIME` seconds after
issuance is modelled lazily: `download_file` checks `expire_time` itself,
and a popped entry and an expired entry give the same 404. -/

/-- Embeds `app.py` 83: file expiration time in seconds (24 hours). -/
def FILE_EXPIRATION_TIME : ℚ := 86400

/-- One value of the `file_tokens` dict (`app.py` 112-117). -/
structure TokenEntry where
  file_path : String
  filename : String
  client_ip : Option String
  expire_time : ℚ
deriving DecidableEq

/-- Embeds `generate_download_token` (`app.py` 107-122): store the token data with
`expire_time = now + FILE_EXPIRATION_TIME` and return the token.  The
freshly drawn `uuid.uuid4()` string is passed in as `token`. -/
def generate_download_token (file_path original_filename : String)
    (client_ip : Option String) (token : String) (now : ℚ)
    (file_tokens : List (String × TokenEntry)) :
    String × List (String × TokenEntry) :=
  (token, (token, ⟨file_path, original_filename, client_ip,
    now + FILE_EXPIRATION_TIME⟩) :: file_tokens)

/-- Embeds `download_file` (`app.py` 85-105): 404 (`none`) if the token is absent
or `expire_time < now`; 404 if the referenced file no longer exists;
otherwise serve the file's bytes as an attachment under the original
filename. -/
def download_file (file_tokens : List (String × TokenEntry))
    (disk : List (String × List Nat)) (token : String) (now : ℚ) :
    Option (List Nat × String) :=
  (file_tokens.lookup token).bind (fun entry =>
    if entry.expire_time < now then none
    else (disk.lookup entry.file_path).bind
      (fun contents => some (contents, entry.filename)))

/-- C3 (counterexample): the claim demands a 404 whenever
`now ≥ expire_time`, but at `now = expire_time` exactly (issue at time 0,
request at time 86400) the code still serves the file, because the check
on `app.py` 88 is the strict `expire_time < time.time()`. -/
theorem download_file_at_expiry_still_serves :
    (0 : ℚ) + FILE_EXPIRATION_TIME ≤ 86400 ∧
    download_file
        ((generate_download_token ("web_serve/f.pdf") ("out.pdf") none ("tok") 0 []).2)
        [(("web_serve/f.pdf"), [1, 2, 3])] ("tok") 86400 =
      some ([1, 2, 3], ("out.pdf")) := by
  constructor
  · norm_num [FILE_EXPIRATION_TIME]
  · norm_num [download_file, generate_download_token, List.lookup,
      FILE_EXPIRATION_TIME]

/-- C3 (amended): for a token issued by `generate_download_token` at time
`t`, a request at time `now` serves exactly the stored file's bytes under
the original filename while `now ≤ t + FILE_EXPIRATION_TIME` and the file
exists on disk; it 404s strictly after expiry (`now > t + 86400`), when
the referenced file is gone, and for any token absent from the registry. -/
theorem download_file_token_lifecycle
    (fp fn : String) (ip : Option String) (tok : String) (t now : ℚ)
    (file_tokens : List (String × TokenEntry)) (disk : List (String × List Nat)) :
    (∀ contents, disk.lookup fp = some contents →
      now ≤ t + FILE_EXPIRATION_TIME →
      download_file (generate_download_token fp fn ip tok t file_tokens).2
        disk tok now = some (contents, fn)) ∧
    (t + FILE_EXPIRATION_TIME < now →
      download_file (generate_download_token fp fn ip tok t file_tokens).2
        disk tok now = none) ∧
    (disk.lookup fp = none →
      download_file (generate_download_token fp fn ip tok t file_tokens).2
        disk tok now = none) ∧
    (∀ tk ft, List.lookup tk ft = none →
      download_file ft disk tk now = none) := by
  have hlook :
      ((generate_download_token fp fn ip tok t file_tokens).2).lookup tok =
        some ⟨fp, fn, ip, t + FILE_EXPIRATION_TIME⟩ := by
    simp [generate_download_token, List.lookup]
  refine ⟨?_, ?_, ?_, ?_⟩
  · intro contents hdisk hnow
    unfold download_file
    rw [hlook, Option.some_bind]
    rw [if_neg (by simp only [not_lt]; exact hnow)]
    rw [hdisk, Option.some_bind]
  · intro hexp
    unfold download_file
    rw [hlook, Option.some_bind, if_pos hexp]
  · intro hdisk
    unfold download_file
    rw [hlook, Option.some_bind]
    by_cases hexp : t + FILE_EXPIRATION_TIME < now
    · rw [if_pos hexp]
    · rw [if_neg hexp, hdisk, Option.none_bind]
  · intro tk ft hnone
    unfold download_file
    rw [hnone, Option.none_bind]

/-- Witness for C3 (amended): a concrete issue-then-resolve round trip
before expiry, and a 404 strictly after expiry. -/
theorem download_file_token_lifecycle_witness :
    ([(("web_serve/g.pdf"), [7, 8])] : List (String × List Nat)).lookup
        ("web_serve/g.pdf") = some [7, 8] ∧
    (100 : ℚ) ≤ 0 + FILE_EXPIRATION_TIME ∧
    download_file
        ((generate_download_token ("web_serve/g.pdf") ("g.pdf") none ("tk") 0 []).2)
        [(("web_serve/g.pdf"), [7, 8])] ("tk") 100 = some ([7, 8], ("g.pdf")) ∧
    (0 : ℚ) + FILE_EXPIRATION_TIME < 90000 ∧
    download_file
        ((generate_download_token ("web_serve/g.pdf") ("g.pdf") none ("tk") 0 []).2)
        [(("web_serve/g.pdf"), [7, 8])] ("tk") 90000 = none := by
  have h1 : ([(("web_serve/g.pdf"), [7, 8])] : List (String × List Nat)).lookup
      ("web_serve/g.pdf") = some [7, 8] := by decide
  have h2 : (100 : ℚ) ≤ 0 + FILE_EXPIRATION_TIME := by
    norm_num [FILE_EXPIRATION_TIME]
  have h4 : (0 : ℚ) + FILE_EXPIRATION_TIME < 90000 := by
    norm_num [FILE_EXPIRATION_TIME]
  refine ⟨h1, h2, ?_, h4, ?_⟩
  · exact (download_file_token_lifecycle ("web_serve/g.pdf") ("g.pdf") none ("tk")
      0 100 [] [(("web_serve/g.pdf"), [7, 8])]).1 [7, 8] h1 h2
  · exact ((download_file_token_lifecycle ("web_serve/g.pdf") ("g.pdf") none ("tk")
      0 90000 [] [(("web_serve/g.pdf"), [7, 8])]).2).1 h4

/-! ## Filename derivation (`get_filename_from_url`, `app.py` 506-528) -/

/-- The literal pattern head of the regex
`filename="?([^"]*)"?` (`app.py` 511). -/
def filenameEqChars : List Char :=
  ['f', 'i', 'l', 'e', 'n', 'a', 'm', 'e', '=']

/-- Embeds `re.search` positioning: find the first occurrence of `pat` in the
text and return what follows it; `none` when `pat` does not occur. -/
def dropThroughPat (pat : List Char) : List Char → Option (List Char)
  | [] => if leadsWith pat [] then some (([] : List Char).drop pat.length) else none
  | c :: t =>
    if leadsWith pat (c :: t) then some ((c :: t).drop pat.length)
    else dropThroughPat pat t

/-- The capture group of `re.search(r'filename="?([^"]*)"?', cd)`
(`app.py` 511-513): after the first `filename=`, skip one optional double
quote, then greedily take non-quote characters. -/
def cdFilename (cd : List Char) : Option (List Char) :=
  match dropThroughPat filenameEqChars cd with
  | none => none
  | some rest =>
    let rest2 := if rest.head? = some '"' then rest.tail else rest
    some (rest2.takeWhile (fun c => c != '"'))

/-- The URL-path fallback of `get_filename_from_url` (`app.py` 515-528):
basename of the parsed URL path, `"document.pdf"` when empty, and a
`.pdf` suffix appended unless `filename.lower()` already ends in
`".pdf"`. -/
def filenameFromPath (path : List Char) : List Char :=
  let filename := pyBasename path
  if filename = [] then ("document.pdf").data
  else if endsIn ((".pdf").data) (pyLower filename) then filename
  else filename ++ ((".pdf").data)

/-- Embeds `get_filename_from_url` (`app.py` 506-528).  `urlPath` is
`urlparse(url).path`; `content_disposition` is the optional header.  The
header's `filename=` group is returned when the header is present and the
regex matches; otherwise the URL-path fallback applies. -/
def get_filename_from_url (urlPath : List Char)
    (content_disposition : Option (List Char)) : List Char :=
  (content_disposition.bind cdFilename).getD (filenameFromPath urlPath)

/-- C4 (counterexample): the claim forces a `.pdf` suffix on the derived
name, but a name taken from the `Content-Disposition` `filename=`
parameter is returned verbatim: `filename="foo.txt"` yields `foo.txt`,
which does not end in `.pdf` even case-insensitively. -/
theorem get_filename_cd_not_suffixed :
    get_filename_from_url (("/y/report.pdf").data)
        (some (("filename=\"foo.txt\"").data)) = ("foo.txt").data ∧
    endsIn ((".pdf").data)
      (pyLower (get_filename_from_url (("/y/report.pdf").data)
        (some (("filename=\"foo.txt\"").data)))) = false := by
  constructor <;> decide

/-- C4 (amended): `get_filename_from_url` returns the `filename=`
parameter of the Content-Disposition header verbatim when one matches
(no `.pdf` suffix is forced on it); otherwise it falls back to the
basename of the URL path, returning `document.pdf` when that basename is
empty, and forcing a `.pdf` suffix only on the URL-derived name, with a
case-insensitive check on an existing suffix (so `report.PDF` is kept
as-is). -/
theorem get_filename_from_url_spec (urlPath : List Char) (cd : List Char) :
    (∀ f, cdFilename cd = some f →
      get_filename_from_url urlPath (some cd) = f) ∧
    (cdFilename cd = none →
      get_filename_from_url urlPath (some cd) = filenameFromPath urlPath) ∧
    (get_filename_from_url urlPath none = filenameFromPath urlPath) ∧
    (pyBasename urlPath = [] →
      filenameFromPath urlPath = ("document.pdf").data) ∧
    (pyBasename urlPath ≠ [] →
      endsIn ((".pdf").data) (pyLower (pyBasename urlPath)) = true →
      filenameFromPath urlPath = pyBasename urlPath) ∧
    (pyBasename urlPath ≠ [] →
      endsIn ((".pdf").data) (pyLower (pyBasename urlPath)) = false →
      filenameFromPath urlPath = pyBasename urlPath ++ ((".pdf").data)) := by
  refine ⟨?_, ?_, ?_, ?_, ?_, ?_⟩
  · intro f hf
    unfold get_filename_from_url
    rw [Option.some_bind, hf]
    rfl
  · intro hf
    unfold get_filename_from_url
    rw [Option.some_bind, hf]
    rfl
  · rfl
  · intro hempty
    unfold filenameFromPath
    rw [if_pos hempty]
  · intro hne hsuf
    unfold filenameFromPath
    rw [if_neg hne, if_pos hsuf]
  · intro hne hsuf
    unfold filenameFromPath
    rw [if_neg hne, if_neg (by rw [hsuf]; exact Bool.false_ne_true)]

/-- Witness for C4 (amended) on the spec's own examples: `report.PDF` with
no Content-Disposition is kept as-is; an empty path basename yields
`document.pdf`; `filename="foo.pdf"` overrides the URL-derived name. -/
theorem get_filename_from_url_spec_witness :
    (pyBasename (("/y/report.PDF").data) ≠ [] ∧
      endsIn ((".pdf").data) (pyLower (pyBasename (("/y/report.PDF").data))) = true ∧
      filenameFromPath (("/y/report.PDF").data) = pyBasename (("/y/report.PDF").data)) ∧
    (pyBasename (("/y/").data) = [] ∧
      filenameFromPath (("/y/").data) = ("document.pdf").data) ∧
    (cdFilename (("filename=\"foo.pdf\"").data) = some (("foo.pdf").data) ∧
      get_filename_from_url (("/y/report.PDF").data)
        (some (("filename=\"foo.pdf\"").data)) = ("foo.pdf").data) := by
  refine ⟨⟨by decide, by decide, ?_⟩, ⟨by decide, ?_⟩, ⟨by decide, ?_⟩⟩
  · exact (get_filename_from_url_spec (("/y/report.PDF").data) []).2.2.2.2.1
      (by decide) (by decide)
  · exact (get_filename_from_url_spec (("/y/").data) []).2.2.2.1 (by decide)
  · exact (get_filename_from_url_spec (("/y/report.PDF").data)
      (("filename=\"foo.pdf\"").data)).1 (("foo.pdf").data) (by decide)

/-! ## Session data (`context.user_data`) and `process_page_range`

`context.user_data` is a per-user dict; across all handlers exactly the
keys `pdf_path`, `num_pages`, `download_url`, `file_name` and
`pending_range` are ever accessed, so it is modelled as a record of
optional fields (`none` = key absent). -/

structure UserData where
  pdf_path : Option String := none
  num_pages : Option Nat := none
  download_url : Option String := none
  file_name : Option String := none
  pending_range : Option (Int × Int) := none
deriving DecidableEq

/-- The blank session data a fresh conversation starts from. -/
def blankUserData : UserData := {}

/-- What the range-selection part of `process_page_range`
(`app.py` 538-565) decides before any extraction work. -/
inductive RangeOutcome
  | formatError
  | boundsError
  | extract (start_page end_page : Int)
deriving DecidableEq

/-- Embeds `app.py` 538-565: if the text lowercases to `'yes'` and a
`pending_range` is stored, use it (deleting the key) with no validation;
otherwise parse the text (re-prompt on `ValueError`) and validate
`start_page < 1 or end_page > num_pages or start_page > end_page`
against `num_pages = user_data.get("num_pages", 0)`. -/
def processPageRangeDecision (text : List Char) (ud : UserData) :
    RangeOutcome × UserData :=
  if pyLower text == yesChars && ud.pending_range.isSome then
    match ud.pending_range with
    | some (s, e) => (.extract s e, {ud with pending_range := none})
    | none => (.formatError, ud)
  else
    match parseRange text with
    | none => (.formatError, ud)
    | some (s, e) =>
      if s < 1 ∨ ((ud.num_pages.getD 0 : Nat) : Int) < e ∨ e < s then
        (.boundsError, ud)
      else (.extract s e, ud)

/-- Embeds `process_page_range` (`app.py` 530-713) up to and including the page
copy loop: both reject branches re-prompt and return `GET_PAGE_RANGE`
with no extraction; a page error during copying also returns
`GET_PAGE_RANGE` and discards the output; a completed copy returns the
extracted pages and ends in `UPLOAD_PDF` (the next-action menu,
`app.py` 699). -/
def processPageRange {α : Type} (text : List Char) (ud : UserData)
    (pages : List α) : Nat × UserData × Option (List α) :=
  match processPageRangeDecision text ud with
  | (.formatError, ud') => (GET_PAGE_RANGE, ud', none)
  | (.boundsError, ud') => (GET_PAGE_RANGE, ud', none)
  | (.extract s e, ud') =>
    match extractRange pages s e with
    | none => (GET_PAGE_RANGE, ud', none)
    | some out => (UPLOAD_PDF, ud', some out)

theorem pyLower_ne_yes_of_parse (text : List Char) (p : Int × Int)
    (hp : parseRange text = some p) : (pyLower text == yesChars) = false := by
  by_contra h
  rw [Bool.not_eq_false, beq_iff_eq] at h
  rw [parseRange_eq_none_of_lower_yes text h] at hp
  cases hp

/-- C2: a parsed range violating `1 ≤ start ≤ end ≤ page_count` (with
`page_count` the recorded `num_pages`) is rejected: `process_page_range`
re-prompts, returns `GET_PAGE_RANGE` (the session stays in the
awaiting-page-range state), leaves the session data unchanged, and
performs no extraction. -/
theorem process_page_range_rejects_invalid {α : Type} (text : List Char)
    (ud : UserData) (pages : List α) (s e : Int) (pc : Nat)
    (hp : parseRange text = some (s, e)) (hn : ud.num_pages = some pc)
    (hviol : s < 1 ∨ (pc : Int) < e ∨ e < s) :
    processPageRange text ud pages = (GET_PAGE_RANGE, ud, none) := by
  have hg : (pyLower text == yesChars) = false :=
    pyLower_ne_yes_of_parse text (s, e) hp
  have hd : processPageRangeDecision text ud = (.boundsError, ud) := by
    unfold processPageRangeDecision
    rw [hg, Bool.false_and]
    simp only [Bool.false_eq_true, if_false, hp]
    rw [if_pos]
    rw [hn]
    simpa using hviol
  simp only [processPageRange, hd]

/-- Witness for C2: the spec's own scenario, range `5-2` on a 10-page
document, is rejected with the session left in place. -/
theorem process_page_range_rejects_invalid_witness :
    parseRange (("5-2").data) = some (5, 2) ∧
    ({ num_pages := some 10 } : UserData).num_pages = some 10 ∧
    ((5 : Int) < 1 ∨ ((10 : Nat) : Int) < 2 ∨ (2 : Int) < 5) ∧
    processPageRange (("5-2").data) ({ num_pages := some 10 } : UserData)
        ([] : List Nat) =
      (GET_PAGE_RANGE, ({ num_pages := some 10 } : UserData), none) :=
  ⟨by decide, rfl, Or.inr (Or.inr (by norm_num)),
    process_page_range_rejects_invalid (("5-2").data)
      ({ num_pages := some 10 } : UserData) ([] : List Nat) 5 2 10
      (by decide) rfl (Or.inr (Or.inr (by norm_num)))⟩

/-- C10: with no recorded page count (`num_pages` absent, defaulted to 0),
every parsed range with `start ≥ 1` is rejected and `process_page_range`
returns `GET_PAGE_RANGE` without attempting extraction. -/
theorem process_page_range_rejects_without_pagecount {α : Type}
    (text : List Char) (ud : UserData) (pages : List α) (s e : Int)
    (hn : ud.num_pages = none) (hp : parseRange text = some (s, e))
    (hs : 1 ≤ s) :
    processPageRange text ud pages = (GET_PAGE_RANGE, ud, none) := by
  have hg : (pyLower text == yesChars) = false :=
    pyLower_ne_yes_of_parse text (s, e) hp
  have hd : processPageRangeDecision text ud = (.boundsError, ud) := by
    unfold processPageRangeDecision
    rw [hg, Bool.false_and]
    simp only [Bool.false_eq_true, if_false, hp]
    rw [if_pos]
    rw [hn]
    simp only [Option.getD_none, Nat.cast_zero]
    omega
  simp only [processPageRange, hd]

/-- Witness for C10: a well-formed range `1-3` sent before any document
was analyzed is rejected. -/
theorem process_page_range_rejects_without_pagecount_witness :
    blankUserData.num_pages = none ∧
    parseRange (("1-3").data) = some (1, 3) ∧
    (1 : Int) ≤ 1 ∧
    processPageRange (("1-3").data) blankUserData ([] : List Nat) =
      (GET_PAGE_RANGE, blankUserData, none) :=
  ⟨rfl, by decide, le_refl 1,
    process_page_range_rejects_without_pagecount (("1-3").data) blankUserData
      ([] : List Nat) 1 3 rfl (by decide) (le_refl 1)⟩

/-! ## Upload handler (`handle_pdf`, `app.py` 356-421)

The storage directory is modelled as the list of paths that exist on
disk.  The handler's I/O can fail at three points — fetching the file
handle, writing to disk (possibly leaving a partial file), or
opening/counting pages — each parameterised explicitly.  On any of these
the `except` block (`app.py` 410-421) reports a recoverable error,
removes the file if the `pdf_path` local exists and the file is on disk,
and returns `UPLOAD_PDF`. -/

/-- Embeds `app.py` 32: directory of retained source PDFs. -/
def PDF_STORAGE_DIR : String := ("stored_pdfs")

/-- Embeds `app.py` 35: directory of ephemeral served copies. -/
def WEB_SERVE_DIR : String := ("web_serve")

/-- Embeds `os.path.join(dir, name)` for the plain `dir/name` case this code
uses. -/
def pathJoin (d n : String) : String := d ++ ("/") ++ n

/-- Embeds `os.path.basename` on a `String`. -/
def pyBasenameStr (s : String) : String := ⟨pyBasename s.data⟩

/-- Embeds `app.py` 384: `f"telegram_{user.id}.pdf"`. -/
def tgDefaultName (user_id : Nat) : String :=
  ("telegram_") ++ toString user_id ++ (".pdf")

/-- Embeds `app.py` 384: `document.file_name if document.file_name else ...`
(`None` and the empty string are both falsy). -/
def chosenUploadName (file_name : Option String) (user_id : Nat) : String :=
  match file_name with
  | some f => if f = ("") then tgDefaultName user_id else f
  | none => tgDefaultName user_id

/-- Embeds `app.py` 385-386: sanitized storage path of an uploaded document. -/
def storagePath (file_name : Option String) (user_id : Nat) : String :=
  pathJoin PDF_STORAGE_DIR (pyBasenameStr (chosenUploadName file_name user_id))

/-- Where, if anywhere, the I/O of `handle_pdf` raises. -/
inductive PdfFailPoint
  | atGetFile
  | atDownload (partialWritten : Bool)
  | atPageCount
  | noFail
deriving DecidableEq

/-- Embeds `handle_pdf` (`app.py` 356-421): size gate, file fetch, write to the
storage directory, `user_data["pdf_path"]` recorded (`app.py` 395), page
count read, `user_data["num_pages"]` recorded (`app.py` 401).  Result:
next conversation state, updated session data, updated disk. -/
def handle_pdf (file_size : Nat) (file_name : Option String) (user_id : Nat)
    (failAt : PdfFailPoint) (page_count : Nat) (ud : UserData)
    (disk : List String) : Nat × UserData × List String :=
  if MAX_FILE_SIZE < file_size then (UPLOAD_PDF, ud, disk)
  else
    match failAt with
    | .atGetFile => (UPLOAD_PDF, ud, disk)
    | .atDownload pw =>
      let path := storagePath file_name user_id
      let disk1 := if pw then path :: disk else disk
      (UPLOAD_PDF, ud, disk1.filter (fun q => q != path))
    | .atPageCount =>
      let path := storagePath file_name user_id
      (UPLOAD_PDF, {ud with pdf_path := some path},
        (path :: disk).filter (fun q => q != path))
    | .noFail =>
      let path := storagePath file_name user_id
      (GET_PAGE_RANGE,
        {ud with pdf_path := some path, num_pages := some page_count},
        path :: disk)

/-- C8 (counterexample): when page counting fails after the file was
persisted, the partial file is removed and `UPLOAD_PDF` is returned, but
`user_data["pdf_path"]` (written on `app.py` 395, before the failing
read) is NOT cleared: the session still records the now-deleted
document, contradicting the claim that no document stays recorded. -/
theorem handle_pdf_read_failure_keeps_pdf_path :
    (handle_pdf 1000 (some ("doc.pdf")) 7 .atPageCount 0 blankUserData []).1 =
      UPLOAD_PDF ∧
    (handle_pdf 1000 (some ("doc.pdf")) 7 .atPageCount 0 blankUserData []).2.2 =
      [] ∧
    (handle_pdf 1000 (some ("doc.pdf")) 7 .atPageCount 0
        blankUserData []).2.1.pdf_path = some ("stored_pdfs/doc.pdf") := by
  refine ⟨rfl, by decide, by decide⟩

/-- C8 (amended): when acquisition fails after the size gate — during the
disk write or while reading/counting pages — `handle_pdf` removes the
file from the storage directory, reports a recoverable error, and returns
`UPLOAD_PDF`; no page count is recorded from the failed document, and the
session data is untouched except that a failure during page counting
leaves `pdf_path` pointing at the removed file. -/
theorem handle_pdf_failure_cleanup (file_size : Nat)
    (file_name : Option String) (user_id page_count : Nat)
    (failAt : PdfFailPoint) (ud : UserData) (disk : List String)
    (hsize : file_size ≤ MAX_FILE_SIZE)
    (hfail : failAt = .atPageCount ∨ ∃ pw, failAt = .atDownload pw) :
    (handle_pdf file_size file_name user_id failAt page_count ud disk).1 =
      UPLOAD_PDF ∧
    storagePath file_name user_id ∉
      (handle_pdf file_size file_name user_id failAt page_count ud disk).2.2 ∧
    (handle_pdf file_size file_name user_id failAt page_count
        ud disk).2.1.num_pages = ud.num_pages ∧
    (failAt = .atPageCount →
      (handle_pdf file_size file_name user_id failAt page_count ud disk).2.1 =
        {ud with pdf_path := some (storagePath file_name user_id)}) ∧
    (∀ pw, failAt = .atDownload pw →
      (handle_pdf file_size file_name user_id failAt page_count ud disk).2.1 =
        ud) := by
  have hgate : ¬ MAX_FILE_SIZE < file_size := not_lt.mpr hsize
  rcases hfail with hfa | ⟨pw, hfa⟩ <;> subst hfa
  · refine ⟨?_, ?_, ?_, fun _ => ?_,
      fun pw hpw => PdfFailPoint.noConfusion hpw⟩ <;>
      simp [handle_pdf, hgate, List.mem_filter]
  · refine ⟨?_, ?_, ?_, fun h => PdfFailPoint.noConfusion h, ?_⟩
    · simp [handle_pdf, hgate]
    · simp [handle_pdf, hgate, List.mem_filter]
    · simp [handle_pdf, hgate]
    · intro pw' hpw'
      simp [handle_pdf, hgate]

/-- Witness for C8 (amended): a concrete failure while writing the file
to disk. -/
theorem handle_pdf_failure_cleanup_witness :
    (1000 ≤ MAX_FILE_SIZE ∧
      ((PdfFailPoint.atDownload true) = PdfFailPoint.atPageCount ∨
        ∃ pw, (PdfFailPoint.atDownload true) = PdfFailPoint.atDownload pw)) ∧
    ((handle_pdf 1000 (some ("a.pdf")) 3 (.atDownload true) 0 blankUserData
        []).1 = UPLOAD_PDF ∧
      storagePath (some ("a.pdf")) 3 ∉
        (handle_pdf 1000 (some ("a.pdf")) 3 (.atDownload true) 0 blankUserData
          []).2.2 ∧
      (handle_pdf 1000 (some ("a.pdf")) 3 (.atDownload true) 0 blankUserData
          []).2.1.num_pages = blankUserData.num_pages ∧
      ((PdfFailPoint.atDownload true) = PdfFailPoint.atPageCount →
        (handle_pdf 1000 (some ("a.pdf")) 3 (.atDownload true) 0 blankUserData
            []).2.1 =
          {blankUserData with
            pdf_path := some (storagePath (some ("a.pdf")) 3)}) ∧
      (∀ pw, (PdfFailPoint.atDownload true) = PdfFailPoint.atDownload pw →
        (handle_pdf 1000 (some ("a.pdf")) 3 (.atDownload true) 0 blankUserData
            []).2.1 = blankUserData)) :=
  ⟨⟨by norm_num [MAX_FILE_SIZE], Or.inr ⟨true, rfl⟩⟩,
    handle_pdf_failure_cleanup 1000 (some ("a.pdf")) 3 0 (.atDownload true)
      blankUserData [] (by norm_num [MAX_FILE_SIZE]) (Or.inr ⟨true, rfl⟩)⟩

/-! ## Session-data writes of the remaining handlers

For the unreachability claim about `pending_range` every write any handler
performs on `context.user_data` is modelled.  `start`, `list_local_pdfs`,
`list_stored_pdfs`, `clear_stored_pdfs`, `cancel` and `error_handler`
write nothing.  The outcome of the external I/O each handler performs is
an explicit boolean parameter. -/

/-- Embeds `select_pdf:` branch of `button_handler` (`app.py` 236-276):
`pdf_path` is stored before the analysis (`app.py` 252), `num_pages` only
when it succeeds (`app.py` 261). -/
def button_select_pdf_ud (file_path : String) (analyzeOk : Bool)
    (num_pages : Nat) (ud : UserData) : UserData :=
  let ud1 := {ud with pdf_path := some file_path}
  if analyzeOk then {ud1 with num_pages := some num_pages} else ud1

/-- Embeds `confirm_download` branch of `button_handler` (`app.py` 277-349):
`num_pages` and `pdf_path` are recorded only when the stored URL exists
and the download and analysis succeed (`app.py` 332-333). -/
def button_confirm_download_ud (urlPresent downloadOk : Bool)
    (pdf_path : String) (num_pages : Nat) (ud : UserData) : UserData :=
  if urlPresent && downloadOk then
    {ud with num_pages := some num_pages, pdf_path := some pdf_path}
  else ud

/-- Embeds `handle_url` (`app.py` 423-504): `download_url` stored once the scheme
check passes (`app.py` 439), `file_name` once all header checks pass
(`app.py` 481). -/
def handle_url_ud (schemeOk checksOk : Bool) (url filename : String)
    (ud : UserData) : UserData :=
  if schemeOk then
    let ud1 := {ud with download_url := some url}
    if checksOk then {ud1 with file_name := some filename} else ud1
  else ud

/-- One handler invocation of the conversation, viewed through its effect
on `context.user_data`.  `start_step` covers every handler that performs
no `user_data` write. -/
inductive UDStep : UserData → UserData → Prop
  | start_step (ud : UserData) : UDStep ud ud
  | select_pdf_step (fp : String) (ok : Bool) (n : Nat) (ud : UserData) :
      UDStep ud (button_select_pdf_ud fp ok n ud)
  | confirm_download_step (u d : Bool) (p : String) (n : Nat)
      (ud : UserData) :
      UDStep ud (button_confirm_download_ud u d p n ud)
  | upload_step (fs : Nat) (fn : Option String) (uid pc : Nat)
      (fa : PdfFailPoint) (ud : UserData) (disk : List String) :
      UDStep ud (handle_pdf fs fn uid fa pc ud disk).2.1
  | url_step (s c : Bool) (url fn : String) (ud : UserData) :
      UDStep ud (handle_url_ud s c url fn ud)
  | range_step (text : List Char) (pages : List Nat) (ud : UserData) :
      UDStep ud (processPageRange text ud pages).2.1

theorem processPageRange_ud_eq {α : Type} (text : List Char) (ud : UserData)
    (pages : List α) :
    (processPageRange text ud pages).2.1 = (processPageRangeDecision text ud).2 := by
  unfold processPageRange
  rcases hd : processPageRangeDecision text ud with ⟨o, ud'⟩
  cases o with
  | formatError => simp
  | boundsError => simp
  | extract s e =>
    rcases he : extractRange pages s e with _ | out <;> simp [he]

theorem decision_ud_of_no_pending (text : List Char) (ud : UserData)
    (h : ud.pending_range = none) :
    (processPageRangeDecision text ud).2 = ud := by
  unfold processPageRangeDecision
  rw [h]
  simp only [Option.isSome_none, Bool.and_false, Bool.false_eq_true, if_false]
  rcases hp : parseRange text with _ | ⟨s, e⟩
  · simp
  · by_cases hv : s < 1 ∨ ((ud.num_pages.getD 0 : Nat) : Int) < e ∨ e < s
    · simp [hv]
    · simp [hv]

theorem UDStep_preserves_no_pending (ud ud' : UserData) (hstep : UDStep ud ud')
    (h : ud.pending_range = none) : ud'.pending_range = none := by
  cases hstep with
  | start_step => exact h
  | select_pdf_step fp ok n =>
    unfold button_select_pdf_ud
    cases ok <;> simp [h]
  | confirm_download_step u d p n =>
    unfold button_confirm_download_ud
    cases u <;> cases d <;> simp [h]
  | upload_step fs fn uid pc fa _ disk =>
    unfold handle_pdf
    by_cases hs : MAX_FILE_SIZE < fs
    · simp [hs, h]
    · cases fa <;> simp [hs, h]
  | url_step s c url fn =>
    unfold handle_url_ud
    cases s <;> cases c <;> simp [h]
  | range_step text pages =>
    rw [processPageRange_ud_eq, decision_ud_of_no_pending text ud h]
    exact h

theorem decision_extract_validated (text : List Char) (ud : UserData)
    (s e : Int) (h : ud.pending_range = none)
    (hd : (processPageRangeDecision text ud).1 = RangeOutcome.extract s e) :
    parseRange text = some (s, e) ∧ 1 ≤ s ∧ s ≤ e ∧
      e ≤ ((ud.num_pages.getD 0 : Nat) : Int) := by
  unfold processPageRangeDecision at hd
  rw [h] at hd
  simp only [Option.isSome_none, Bool.and_false, Bool.false_eq_true, if_false] at hd
  rcases hp : parseRange text with _ | ⟨s', e'⟩
  · rw [hp] at hd
    simp at hd
  · rw [hp] at hd
    by_cases hv : s' < 1 ∨ ((ud.num_pages.getD 0 : Nat) : Int) < e' ∨ e' < s'
    · simp [hv] at hd
    · simp only [hv, if_false] at hd
      obtain ⟨hs, he⟩ := RangeOutcome.extract.inj hd
      subst hs
      subst he
      push_neg at hv
      exact ⟨rfl, by omega, by omega, by omega⟩

/-- C9: starting from blank session data, no handler of the conversation
ever writes the `pending_range` key, so in every reachable session the
`'yes'` branch of `process_page_range` is unreachable: whenever the
decision step of `process_page_range` selects an extraction, the input
parsed as that exact range and it passed the bounds validation against
the recorded page count. -/
theorem pending_range_never_written (ud : UserData)
    (h : Relation.ReflTransGen UDStep blankUserData ud) :
    ud.pending_range = none ∧
    ∀ (text : List Char) (s e : Int),
      (processPageRangeDecision text ud).1 = RangeOutcome.extract s e →
      parseRange text = some (s, e) ∧ 1 ≤ s ∧ s ≤ e ∧
        e ≤ ((ud.num_pages.getD 0 : Nat) : Int) := by
  have hpend : ud.pending_range = none := by
    induction h with
    | refl => rfl
    | tail h1 hstep ih => exact UDStep_preserves_no_pending _ _ hstep ih
  exact ⟨hpend, fun text s e hd => decision_extract_validated text ud s e hpend hd⟩

/-- Witness for C9 at the initial session. -/
theorem pending_range_never_written_witness :
    blankUserData.pending_range = none ∧
    ∀ (text : List Char) (s e : Int),
      (processPageRangeDecision text blankUserData).1 = RangeOutcome.extract s e →
      parseRange text = some (s, e) ∧ 1 ≤ s ∧ s ≤ e ∧
        e ≤ ((blankUserData.num_pages.getD 0 : Nat) : Int) :=
  pending_range_never_written blankUserData Relation.ReflTransGen.refl

/-! ## Distribution of the extraction output (`app.py` 612-679) -/

/-- How the output of an extraction is handed to the user. -/
inductive DistOutcome
  | inline (filename : String)
  | configError
  | link (url : String)
deriving DecidableEq

/-- Embeds `app.py` 612-679: if the output size is within `MAX_FILE_SIZE` the
document is sent inline; otherwise it is copied into the serve directory
under `f"{uuid4()}_{output_filename}"`, a token is registered, the URL
`f"{PUBLIC_URL}/download/{token}"` is built, and — if that URL contains
`localhost` or `127.0.0.1` — a configuration error is reported instead of
a link.  The fresh `uuid4` strings are passed in as `uuidStr` and
`tokenStr`. -/
def distributeOutput (output_size : Nat) (output_filename : String)
    (outputBytes : List Nat) (uuidStr tokenStr public_url : String) (now : ℚ)
    (serveDir : List (String × List Nat))
    (file_tokens : List (String × TokenEntry)) :
    DistOutcome × List (String × List Nat) × List (String × TokenEntry) :=
  if output_size ≤ MAX_FILE_SIZE then
    (.inline output_filename, serveDir, file_tokens)
  else
    let unique_filename := uuidStr ++ ("_") ++ output_filename
    let web_serve_path := pathJoin WEB_SERVE_DIR unique_filename
    let serveDir1 := (web_serve_path, outputBytes) :: serveDir
    let tokens1 := (generate_download_token web_serve_path output_filename
      none tokenStr now file_tokens).2
    let download_url := public_url ++ ("/download/") ++ tokenStr
    if containsSub (("localhost").data) download_url.data ||
        containsSub (("127.0.0.1").data) download_url.data then
      (.configError, serveDir1, tokens1)
    else (.link download_url, serveDir1, tokens1)

/-- C5: an output of at most `MAX_FILE_SIZE` bytes is delivered inline; a
larger output is copied into the serve directory under a randomized name,
registered with the token registry (24-hour expiry), and offered through
`{PUBLIC_URL}/download/{token}` — unless that URL contains a
loopback/placeholder address, in which case a configuration error is
reported and no link is handed out. -/
theorem distributeOutput_spec (output_size : Nat) (output_filename : String)
    (outputBytes : List Nat) (uuidStr tokenStr public_url : String) (now : ℚ)
    (serveDir : List (String × List Nat))
    (file_tokens : List (String × TokenEntry)) :
    (output_size ≤ MAX_FILE_SIZE →
      distributeOutput output_size output_filename outputBytes uuidStr tokenStr
          public_url now serveDir file_tokens =
        (.inline output_filename, serveDir, file_tokens)) ∧
    (MAX_FILE_SIZE < output_size →
      (distributeOutput output_size output_filename outputBytes uuidStr
          tokenStr public_url now serveDir file_tokens).2.1 =
        (pathJoin WEB_SERVE_DIR (uuidStr ++ ("_") ++ output_filename),
          outputBytes) :: serveDir ∧
      ((distributeOutput output_size output_filename outputBytes uuidStr
          tokenStr public_url now serveDir file_tokens).2.2).lookup tokenStr =
        some ⟨pathJoin WEB_SERVE_DIR (uuidStr ++ ("_") ++ output_filename),
          output_filename, none, now + FILE_EXPIRATION_TIME⟩ ∧
      ((containsSub (("localhost").data)
            (public_url ++ ("/download/") ++ tokenStr).data ||
          containsSub (("127.0.0.1").data)
            (public_url ++ ("/download/") ++ tokenStr).data) = true →
        (distributeOutput output_size output_filename outputBytes uuidStr
            tokenStr public_url now serveDir file_tokens).1 = .configError) ∧
      ((containsSub (("localhost").data)
            (public_url ++ ("/download/") ++ tokenStr).data ||
          containsSub (("127.0.0.1").data)
            (public_url ++ ("/download/") ++ tokenStr).data) = false →
        (distributeOutput output_size output_filename outputBytes uuidStr
            tokenStr public_url now serveDir file_tokens).1 =
          .link (public_url ++ ("/download/") ++ tokenStr))) := by
  constructor
  · intro hsmall
    unfold distributeOutput
    rw [if_pos hsmall]
  · intro hbig
    have hgate : ¬ output_size ≤ MAX_FILE_SIZE := not_le.mpr hbig
    refine ⟨?_, ?_, ?_, ?_⟩
    · unfold distributeOutput
      rw [if_neg hgate]
      by_cases hlb : (containsSub (("localhost").data)
            (public_url ++ ("/download/") ++ tokenStr).data ||
          containsSub (("127.0.0.1").data)
            (public_url ++ ("/download/") ++ tokenStr).data) = true
      · rw [if_pos hlb]
      · rw [if_neg hlb]
    · unfold distributeOutput
      rw [if_neg hgate]
      by_cases hlb : (containsSub (("localhost").data)
            (public_url ++ ("/download/") ++ tokenStr).data ||
          containsSub (("127.0.0.1").data)
            (public_url ++ ("/download/") ++ tokenStr).data) = true
      · rw [if_pos hlb]
        simp [generate_download_token, List.lookup]
      · rw [if_neg hlb]
        simp [generate_download_token, List.lookup]
    · intro hlb
      unfold distributeOutput
      rw [if_neg hgate, if_pos hlb]
    · intro hlb
      unfold distributeOutput
      rw [if_neg hgate, if_neg (by rw [hlb]; exact Bool.false_ne_true)]

/-- Witness for C5: a small output goes inline; an oversized output with a
public (non-loopback) base URL yields a registered token and a link. -/
theorem distributeOutput_spec_witness :
    (100 ≤ MAX_FILE_SIZE ∧
      distributeOutput 100 ("r_pages_1_to_2.pdf") [9] ("u1") ("t1")
          ("http://3.4.5.6:8000") 0 [] [] =
        (.inline ("r_pages_1_to_2.pdf"), [], [])) ∧
    (MAX_FILE_SIZE < 52430000 ∧
      (containsSub (("localhost").data)
          (("http://3.4.5.6:8000") ++ ("/download/") ++ ("t1")).data ||
        containsSub (("127.0.0.1").data)
          (("http://3.4.5.6:8000") ++ ("/download/") ++ ("t1")).data) = false ∧
      ((distributeOutput 52430000 ("r_pages_1_to_2.pdf") [9] ("u1") ("t1")
          ("http://3.4.5.6:8000") 0 [] []).2.2).lookup ("t1") =
        some ⟨pathJoin WEB_SERVE_DIR (("u1") ++ ("_") ++ ("r_pages_1_to_2.pdf")),
          ("r_pages_1_to_2.pdf"), none, 0 + FILE_EXPIRATION_TIME⟩ ∧
      (distributeOutput 52430000 ("r_pages_1_to_2.pdf") [9] ("u1") ("t1")
          ("http://3.4.5.6:8000") 0 [] []).1 =
        .link (("http://3.4.5.6:8000") ++ ("/download/") ++ ("t1"))) := by
  have hsmall : 100 ≤ MAX_FILE_SIZE := by norm_num [MAX_FILE_SIZE]
  have hbig : MAX_FILE_SIZE < 52430000 := by norm_num [MAX_FILE_SIZE]
  have hlb : (containsSub (("localhost").data)
      (("http://3.4.5.6:8000") ++ ("/download/") ++ ("t1")).data ||
    containsSub (("127.0.0.1").data)
      (("http://3.4.5.6:8000") ++ ("/download/") ++ ("t1")).data) = false := by
    decide
  refine ⟨⟨hsmall, ?_⟩, hbig, hlb, ?_, ?_⟩
  · exact (distributeOutput_spec 100 ("r_pages_1_to_2.pdf") [9] ("u1") ("t1")
      ("http://3.4.5.6:8000") 0 [] []).1 hsmall
  · exact ((distributeOutput_spec 52430000 ("r_pages_1_to_2.pdf") [9] ("u1")
      ("t1") ("http://3.4.5.6:8000") 0 [] []).2 hbig).2.1
  · exact (((distributeOutput_spec 52430000 ("r_pages_1_to_2.pdf") [9] ("u1")
      ("t1") ("http://3.4.5.6:8000") 0 [] []).2 hbig).2.2).2 hlb

/-- C6 (code bug): the extraction loop's own comment (`app.py` 582) says
progress is updated "at most 10 times", but for a 12-page range the
reporting interval is `max(1, 12 // 10) = 1` and the loop attempts 11
progress reports (loop counters 1 through 11), exceeding 10. -/
theorem progress_reports_exceed_ten :
    progress_interval 12 = 1 ∧ progressReportCount 12 = 11 ∧
    10 < progressReportCount 12 := by
  refine ⟨rfl, by decide, by decide⟩

/-- C7 (code bug): the download loop's comment (`app.py` 309) promises an
update "every ~5% or at least every 10 seconds", but the code compares
`current_time - start_time - last_update_time > 10` where
`last_update_time` holds the byte count of the previous update
(`app.py` 315), mixing seconds with bytes.  Concretely: 100 MiB total, a
previous update at 50 MiB, 52 MiB downloaded, 20 seconds elapsed since
the download started (so certainly more than 10 seconds since the last
update) — yet no update is attempted, since the fraction advanced only
2 percentage points and `20 - 52428800 > 10` is false. -/
theorem download_progress_time_condition_broken :
    shouldReportDownloadProgress 104857600 54525952 52428800 0 20 = false ∧
    (10 : ℚ) < 20 - 0 ∧
    (54525952 : ℚ) / 104857600 - 52428800 / 104857600 = 2 / 100 := by
  refine ⟨?_, by norm_num, by norm_num⟩
  unfold shouldReportDownloadProgress
  rw [Bool.and_eq_false_iff]
  right
  rw [Bool.or_eq_false_iff]
  constructor
  · rw [decide_eq_false_iff_not]
    norm_num
  · rw [decide_eq_false_iff_not]
    norm_num
